import Mathlib

/-
Verification of the robottelo entity factory and data-modelling layer.

The definitions below are a shallow embedding of the relevant parts of
`robottelo/orm.py` and `robottelo/cli/factory.py`.  Python dictionaries are
modelled as association lists over a small closed value type, the CLI
backend (`cli_object.create`) is a function parameter, and the randomness
consumed by the value generators is an explicit `Nat` oracle.  Side effects
that matter to the claims (the backend submission and the fixed
`sleep_for_seconds(5)` propagation delay in `create_object`) are recorded in
an explicit event trace.
-/

namespace Robottelo

/-- The Python values that flow through the factory layer: `None`, strings,
integers and booleans. -/
inductive Val where
  | vnone : Val
  | vstr : String → Val
  | vint : Int → Val
  | vbool : Bool → Val
deriving DecidableEq

/-- Python truthiness for `Val`: `None`, the empty string, `0` and `False`
are falsy, everything else is truthy. -/
def truthy : Val → Bool
  | Val.vnone => false
  | Val.vstr s => !(s == "")
  | Val.vint n => !(n == 0)
  | Val.vbool b => b

/-- A Python dict with string keys, as an association list. -/
abbrev AttrMap := List (String × Val)

/-- Model of `m.get(k, None)`: the value stored at `k`, or `None` when absent. -/
def dictGet (m : AttrMap) (k : String) : Val :=
  (List.lookup k m).getD Val.vnone

/-- Model of `dict.update`: every key of `b` overrides or extends `a`. -/
def dict_update (a b : AttrMap) : AttrMap :=
  (a.map fun kv => (kv.1, (List.lookup kv.1 b).getD kv.2))
    ++ b.filter fun kv => decide (List.lookup kv.1 a = none)

/- ------------------------------------------------------------------ -/
/- robottelo/orm.py : field value synthesis (`_get_value`)            -/
/- ------------------------------------------------------------------ -/

/-- The slice of a booby field's `options` dict that `_get_value` reads:
whether a `default` entry is present, and whether a `choices` entry is
present. -/
structure FieldOptions where
  defaultOpt : Option Val
  choices : Option (List Val)
deriving DecidableEq

/-- Model of `FauxFactory.generate_choice`: a uniformly random element of `choices`,
with the random draw made explicit as the oracle `r`; `none` models the
`IndexError` raised on an empty sequence. -/
def generate_choice (choices : List Val) (r : Nat) : Option Val :=
  choices[r % choices.length]?

/-- The `default` argument of `_get_value` is either a callable (applied to
fresh randomness) or an already-computed value, matching the two ways the
concrete field classes invoke it. -/
def applyDefault (dflt : Sum (Nat → Val) Val) (r : Nat) : Val :=
  match dflt with
  | Sum.inl f => f r
  | Sum.inr v => v

/-- Model of `orm._get_value(field, default)`: (1) a declared `default` option wins;
(2) else a random element of the declared `choices`; (3) else call `default`
if callable; (4) else return `default` itself. -/
def _get_value (field : FieldOptions) (dflt : Sum (Nat → Val) Val) (r : Nat) :
    Option Val :=
  match field.defaultOpt with
  | some d => some d
  | none =>
    match field.choices with
    | some cs => generate_choice cs r
    | none => some (applyDefault dflt r)

/- ------------------------------------------------------------------ -/
/- robottelo/orm.py : Entity.path                                     -/
/- ------------------------------------------------------------------ -/

/-- Raised when `Entity.path` cannot construct the requested path. -/
structure NoSuchPathError where
deriving DecidableEq

/-- Model of `urlparse.urljoin` restricted to the two shapes `Entity.path`
exercises: the base ends with `/` and the suffix is a relative path segment
with no leading `/`, in which case `urljoin` appends the suffix to the
base. -/
def urljoin (base suffix : String) : String :=
  base ++ suffix

/-- Model of `Entity.path(which)`.  The entity's state enters through `id` (the value
of the implicit `id` field, `none` when unset); the base collection URL is
`urljoin(get_server_url() + '/', Meta.api_path)`.  Mirrors the source's
branch structure: `which == 'all' or which is None and id is None` returns
the base, `id is not None and (which is None or which == 'this')` returns
the item URL, and anything else raises `NoSuchPathError`. -/
def entity_path (serverUrl apiPath : String) (id : Option Int)
    (which : Option String) : Except NoSuchPathError String :=
  let base := urljoin (serverUrl ++ "/") apiPath
  if which = some "all" ∨ (which = none ∧ id = none) then
    Except.ok base
  else
    match id with
    | some i =>
      if which = none ∨ which = some "this" then
        Except.ok (urljoin (base ++ "/") (toString i))
      else
        Except.error {}
    | none => Except.error {}

/- ------------------------------------------------------------------ -/
/- robottelo/orm.py : OneToManyField.__set__                          -/
/- ------------------------------------------------------------------ -/

/-- An instance of the target entity class, i.e. the result of
`self.entity(**attrs)`: the constructor binds the mapping's keys as field
values. -/
structure EntityInst where
  attrs : AttrMap
deriving DecidableEq

/-- One element of a sequence assigned to a `OneToManyField`: an entity
instance, a dict, or any other Python object (kept opaque). -/
inductive OTMItem where
  | ent : EntityInst → OTMItem
  | map : AttrMap → OTMItem
  | other : Val → OTMItem
deriving DecidableEq

/-- A value assigned to a `OneToManyField`: a single entity instance, a bare
dict, a sequence, or any other Python object (passed through untouched and
left to the booby validator). -/
inductive OTMValue where
  | ent : EntityInst → OTMValue
  | map : AttrMap → OTMValue
  | seq : List OTMItem → OTMValue
  | other : Val → OTMValue
deriving DecidableEq

/-- Does a normalized sequence element hold an entity instance? -/
def OTMItem.isEnt : OTMItem → Bool
  | OTMItem.ent _ => true
  | _ => false

/-- Is a raw sequence element something other than an instance or a dict? -/
def OTMItem.isOther : OTMItem → Bool
  | OTMItem.other _ => true
  | _ => false

/-- The value manipulation performed by `OneToManyField.__set__` before it
calls `super().__set__`: a single instance is wrapped in a list, a dict is
converted to an instance and wrapped in a list, and inside a list every dict
element is converted to an instance (other elements are kept as they
are). -/
def oneToManySet : OTMValue → OTMValue
  | OTMValue.ent e => OTMValue.seq [OTMItem.ent e]
  | OTMValue.map m => OTMValue.seq [OTMItem.ent ⟨m⟩]
  | OTMValue.seq l =>
    OTMValue.seq (l.map fun item =>
      match item with
      | OTMItem.map m => OTMItem.ent ⟨m⟩
      | x => x)
  | OTMValue.other v => OTMValue.other v

/- ------------------------------------------------------------------ -/
/- robottelo/orm.py : Entity.get_values                               -/
/- ------------------------------------------------------------------ -/

/-- Model of `Entity.get_values()`: start from `dict(self)` — which maps every
declared field name to its value, `None` for fields never assigned — and
drop every entry whose value is `None`. -/
def get_values (inst : AttrMap) : AttrMap :=
  inst.filter fun kv => decide (kv.2 ≠ Val.vnone)

/-- Assignment of a value to a declared field of an entity instance: the
entry for that field in the underlying field-value dict is replaced. -/
def set_attr (inst : AttrMap) (k : String) (v : Val) : AttrMap :=
  inst.map fun kv => if kv.1 = k then (kv.1, v) else kv

/- ------------------------------------------------------------------ -/
/- robottelo/cli/factory.py                                           -/
/- ------------------------------------------------------------------ -/

/-- The shape of `result.stdout` of a CLI call: the parsed output may be a dict, a list,
or a plain string. -/
inductive Stdout where
  | dict : AttrMap → Stdout
  | list : List Stdout → Stdout
  | str : String → Stdout

/-- The result record of `cli_object.create(args)`. -/
structure ExecResult where
  return_code : Int
  stdout : Stdout
  stderr : String

/-- The exception `CLIFactoryError`: an error occurred while creating an entity. -/
structure CLIFactoryError where
  msg : String
deriving DecidableEq

/-- The observable side effects `create_object` performs, in order: the
backend submission and the fixed `sleep_for_seconds(5)` propagation
delay. -/
inductive Event where
  | submit : String → AttrMap → Event
  | sleep : Nat → Event
deriving DecidableEq

/-- Model of `_format_error_msg(msg)`: indent each line of an error message by two
spaces. -/
def _format_error_msg (msg : String) : String :=
  String.intercalate "\n" ((msg.splitOn "\n").map fun line => "  " ++ line)

/-- Model of Python's `%r` on a `Val` (quoting of strings is elided; the
claims only need the rendering to appear inside the error message). -/
def reprVal : Val → String
  | Val.vnone => "None"
  | Val.vstr s => s
  | Val.vint n => toString n
  | Val.vbool b => if b then "True" else "False"

/-- Model of Python's `%r` on the args dict. -/
def reprAttrMap (m : AttrMap) : String :=
  "\x7b" ++ String.intercalate ", " (m.map fun kv => kv.1 ++ ": " ++ reprVal kv.2)
    ++ "\x7d"

/-- The message of the `CLIFactoryError` raised by `create_object`:
`"Failed to create %s with %r data due to:\n%s" % (name, args,
_format_error_msg(result.stderr))`. -/
def create_error_msg (name : String) (args : AttrMap) (stderr : String) :
    String :=
  "Failed to create " ++ name ++ " with " ++ reprAttrMap args
    ++ " data due to:\n" ++ _format_error_msg stderr

/-- The normalization at the end of `create_object`: "Sometimes we get a
list with a dictionary and not a dictionary" — a non-empty list result is
replaced by its first element; everything else passes through unchanged. -/
def normalize_stdout : Stdout → Stdout
  | Stdout.list (x :: _) => x
  | s => s

/-- Model of `create_object(cli_object, args)`: submit `args` to the backend, sleep
for five seconds, then either raise `CLIFactoryError` (non-zero return
code) or return the normalized `stdout`.  The second component is the trace
of side effects, in execution order. -/
def create_object (name : String) (backend : AttrMap → ExecResult)
    (args : AttrMap) : Except CLIFactoryError Stdout × List Event :=
  if (backend args).return_code ≠ 0 then
    (Except.error ⟨create_error_msg name args (backend args).stderr⟩,
     [Event.submit name args, Event.sleep 5])
  else
    (Except.ok (normalize_stdout (backend args).stdout),
     [Event.submit name args, Event.sleep 5])

/-- Errors a `make_*` factory function can raise: a `CLIFactoryError` (its
own validation or a propagated `create_object` failure) or a Python
`TypeError` from `args.update(...)` when the backend result is not a
mapping. -/
inductive FactoryError where
  | cliError : CLIFactoryError → FactoryError
  | typeError : FactoryError
deriving DecidableEq

/-- Modelled from the spec: `update_dictionary(default, updates)` lives in
`robottelo/common/helpers.py`, which is not among the sources; per the
spec's attribute-materialization contract it overlays the caller-supplied
overrides on the defaults so that explicit values win, and with no
overrides it returns the defaults unchanged. -/
def update_dictionary (dflt : AttrMap) (updates : Option AttrMap) : AttrMap :=
  match updates with
  | none => dflt
  | some u => dflt.map fun kv => (kv.1, (List.lookup kv.1 u).getD kv.2)

/-- Modelled from the spec: `generate_name` lives in
`robottelo/common/helpers.py`, which is not among the sources; per the
spec's field-synthesis contract it returns a random alphabetic string of
length between 1 and the given maximum (so never empty), with the random
draws driven by the oracle `r`. -/
def generate_name (maxLen r : Nat) : String :=
  let len := 1 + r % maxLen
  String.mk ((List.range len).map fun i => Char.ofNat (97 + (r + i) % 26))

/-- Python truthiness of the `options` argument itself: `None` and the
empty dict are falsy. -/
def optFalsy : Option AttrMap → Bool
  | none => true
  | some m => m.isEmpty

/-- Model of `options.get(key, None)` guarded by the short-circuit on `not options`:
when `options` is `None` the source never reaches the `.get` call, so any
total extension is faithful; absent keys yield `None`. -/
def optGet (options : Option AttrMap) (k : String) : Val :=
  match options with
  | none => Val.vnone
  | some m => dictGet m k

/-- The defaults dict built by `make_activation_key` (the synthesized
`generate_name()` value is the explicit parameter `genName`). -/
def activation_key_defaults (genName : String) : AttrMap :=
  [("content-view", Val.vnone),
   ("content-view-id", Val.vnone),
   ("description", Val.vnone),
   ("lifecycle-environment", Val.vnone),
   ("lifecycle-environment-id", Val.vnone),
   ("max-content-hosts", Val.vnone),
   ("name", Val.vstr genName),
   ("organization", Val.vnone),
   ("organization-id", Val.vnone),
   ("organization-label", Val.vnone),
   ("unlimited-content-hosts", Val.vbool true)]

/-- Model of `make_activation_key(options)`: raise `CLIFactoryError` when `options`
is falsy or none of `organization`, `organization-label`,
`organization-id` is truthy (mirroring the source's
`not options or not A and not B and not C` condition); otherwise build the
defaults, overlay `options`, create through the backend and merge the
normalized result over the args.  The second component is the trace of
backend side effects. -/
def make_activation_key (genName : String) (backend : AttrMap → ExecResult)
    (options : Option AttrMap) : Except FactoryError AttrMap × List Event :=
  if optFalsy options
      || (!truthy (optGet options "organization")
          && !truthy (optGet options "organization-label")
          && !truthy (optGet options "organization-id")) then
    (Except.error (FactoryError.cliError ⟨"Please provide a valid Organization."⟩), [])
  else
    match create_object "ActivationKey" backend
        (update_dictionary (activation_key_defaults genName) options) with
    | (Except.error e, tr) => (Except.error (FactoryError.cliError e), tr)
    | (Except.ok (Stdout.dict d), tr) =>
      (Except.ok (dict_update
        (update_dictionary (activation_key_defaults genName) options) d), tr)
    | (Except.ok _, tr) => (Except.error FactoryError.typeError, tr)

/-- The defaults dict built by `make_org`: a synthesized six-character name
plus unset `label` and `description`. -/
def org_defaults (r : Nat) : AttrMap :=
  [("name", Val.vstr (generate_name 6 r)),
   ("label", Val.vnone),
   ("description", Val.vnone)]

/-- Model of `make_org(options)`: build the defaults (`name` synthesized by
`generate_name(6)`), overlay `options`, create through the backend via
`create_object`, and merge the normalized result over the args
(`args.update(create_object(Org, args))`). -/
def make_org (r : Nat) (backend : AttrMap → ExecResult)
    (options : Option AttrMap) : Except FactoryError AttrMap × List Event :=
  match create_object "Org" backend (update_dictionary (org_defaults r) options) with
  | (Except.error e, tr) => (Except.error (FactoryError.cliError e), tr)
  | (Except.ok (Stdout.dict d), tr) =>
    (Except.ok (dict_update (update_dictionary (org_defaults r) options) d), tr)
  | (Except.ok _, tr) => (Except.error FactoryError.typeError, tr)

/-- Substring containment on strings. -/
def strContains (big small : String) : Prop :=
  ∃ x y, big = x ++ small ++ y

/-- The predicate `exactlyOne a b c`: exactly one of the three booleans is true. -/
def exactlyOne (a b c : Bool) : Bool :=
  (a && !b && !c) || (!a && b && !c) || (!a && !b && c)

/- ------------------------------------------------------------------ -/
/- Theorems                                                           -/
/- ------------------------------------------------------------------ -/

/-- C1: `Entity.path` resolution: with `which` unspecified and `id` unset
the collection path (the URL-joined base) is returned; with `which`
unspecified and `id` set the item path (collection path URL-joined with the
id's string) is returned; `'this'` with `id` unset raises
`NoSuchPathError`; `'all'` always returns the collection path. -/
theorem c1_entity_path_resolution (su ap : String) :
    (entity_path su ap none none = Except.ok (urljoin (su ++ "/") ap))
    ∧ (∀ n : Int, entity_path su ap (some n) none
        = Except.ok (urljoin (urljoin (su ++ "/") ap ++ "/") (toString n)))
    ∧ (entity_path su ap none (some "this") = Except.error {})
    ∧ (∀ id : Option Int, entity_path su ap id (some "all")
        = Except.ok (urljoin (su ++ "/") ap)) := by
  refine ⟨?_, ?_, ?_, ?_⟩
  · simp [entity_path]
  · intro n; simp [entity_path]
  · simp [entity_path]
  · intro id; simp [entity_path]

/-- C2: `_get_value` precedence: a declared fixed default is returned
verbatim regardless of any choice set; otherwise, with a non-empty declared
choice set, the result is an element of that set; otherwise the
type-appropriate generator supplies the value. -/
theorem c2_get_value_precedence (field : FieldOptions)
    (dflt : Sum (Nat → Val) Val) (r : Nat) :
    (∀ d, field.defaultOpt = some d → _get_value field dflt r = some d)
    ∧ (∀ cs, field.defaultOpt = none → field.choices = some cs → cs ≠ [] →
        ∃ v, _get_value field dflt r = some v ∧ v ∈ cs)
    ∧ (field.defaultOpt = none → field.choices = none →
        _get_value field dflt r = some (applyDefault dflt r)) := by
  refine ⟨?_, ?_, ?_⟩
  · intro d hd
    simp [_get_value, hd]
  · intro cs h1 h2 h3
    have hlen : 0 < cs.length := List.length_pos.mpr h3
    have hlt : r % cs.length < cs.length := Nat.mod_lt _ hlen
    refine ⟨cs[r % cs.length], ?_, List.getElem_mem hlt⟩
    simp [_get_value, h1, h2, generate_choice, List.getElem?_eq_getElem hlt]
  · intro h1 h2
    simp [_get_value, h1, h2]

/-- C2 witness: the three precedence branches evaluated on concrete
fields. -/
theorem c2_get_value_precedence_witness :
    (_get_value ⟨some (Val.vint 7), some [Val.vint 1]⟩ (Sum.inr Val.vnone) 0
      = some (Val.vint 7))
    ∧ (∃ v, _get_value ⟨none, some [Val.vint 1, Val.vint 2]⟩
        (Sum.inr Val.vnone) 1 = some v ∧ v ∈ [Val.vint 1, Val.vint 2])
    ∧ (_get_value ⟨none, none⟩ (Sum.inr (Val.vint 3)) 0
        = some (applyDefault (Sum.inr (Val.vint 3)) 0)) :=
  ⟨(c2_get_value_precedence ⟨some (Val.vint 7), some [Val.vint 1]⟩
      (Sum.inr Val.vnone) 0).1 _ rfl,
   (c2_get_value_precedence ⟨none, some [Val.vint 1, Val.vint 2]⟩
      (Sum.inr Val.vnone) 1).2.1 _ rfl rfl (by decide),
   (c2_get_value_precedence ⟨none, none⟩
      (Sum.inr (Val.vint 3)) 0).2.2 rfl rfl⟩

/-- C5: `OneToManyField.__set__` normalization: a single target-type
instance becomes a one-element sequence holding it; a bare mapping becomes
a one-element sequence holding an instance constructed from the mapping; a
sequence of mappings and/or instances becomes a same-length sequence all of
whose elements are instances. -/
theorem c5_one_to_many_normalization (e : EntityInst) (m : AttrMap)
    (l : List OTMItem) :
    (oneToManySet (OTMValue.ent e) = OTMValue.seq [OTMItem.ent e])
    ∧ (oneToManySet (OTMValue.map m) = OTMValue.seq [OTMItem.ent ⟨m⟩])
    ∧ ((∀ i ∈ l, i.isOther = false) →
        ∃ l', oneToManySet (OTMValue.seq l) = OTMValue.seq l'
          ∧ l'.length = l.length ∧ ∀ j ∈ l', j.isEnt = true) := by
  refine ⟨rfl, rfl, ?_⟩
  intro h
  refine ⟨_, rfl, List.length_map _ _, ?_⟩
  intro j hj
  obtain ⟨i, hi, rfl⟩ := List.mem_map.mp hj
  cases i with
  | ent e' => rfl
  | map m' => rfl
  | other v => exact absurd (h _ hi) (by simp [OTMItem.isOther])

/-- C5 witness: a concrete mixed sequence of one mapping and one instance
normalizes to all-instances. -/
theorem c5_one_to_many_normalization_witness :
    (∀ i ∈ [OTMItem.map [("name", Val.vstr "fido")], OTMItem.ent ⟨[]⟩],
        OTMItem.isOther i = false)
    ∧ ∃ l', oneToManySet
        (OTMValue.seq [OTMItem.map [("name", Val.vstr "fido")], OTMItem.ent ⟨[]⟩])
        = OTMValue.seq l'
      ∧ l'.length = 2 ∧ ∀ j ∈ l', OTMItem.isEnt j = true :=
  ⟨by decide,
   (c5_one_to_many_normalization ⟨[]⟩ []
      [OTMItem.map [("name", Val.vstr "fido")], OTMItem.ent ⟨[]⟩]).2.2
     (by decide)⟩

/-- C7: result normalization is unwrap-idempotent: normalizing a
one-element list wrapping a mapping yields the same value as normalizing
the mapping directly. -/
theorem c7_unwrap_idempotence (m : AttrMap) :
    normalize_stdout (Stdout.list [Stdout.dict m])
      = normalize_stdout (Stdout.dict m) := rfl

/-- Helper: `set_attr` with `None` is the identity on an instance all of
whose entries at that key already hold `None`. -/
theorem set_attr_none_id (inst : AttrMap) (k : String)
    (h : ∀ v', (k, v') ∈ inst → v' = Val.vnone) :
    set_attr inst k Val.vnone = inst := by
  unfold set_attr
  induction inst with
  | nil => rfl
  | cons kv rest ih =>
    simp only [List.map_cons]
    have hrest : rest.map (fun kv => if kv.1 = k then (kv.1, Val.vnone) else kv)
        = rest :=
      ih fun v' hv' => h v' (List.mem_cons_of_mem _ hv')
    rw [hrest]
    by_cases hk : kv.1 = k
    · have hv : kv.2 = Val.vnone :=
        h kv.2 (by rw [← hk]; exact List.mem_cons_self _ _)
      rw [if_pos hk, ← hv]
    · simp [hk]

/-- C9: `Entity.get_values` omits exactly the `None`-valued fields, and an
instance with a field explicitly assigned `None` serializes identically to
one in which that field was never assigned (so still holds `None` in the
underlying field dict). -/
theorem c9_get_values_omits_none (inst : AttrMap) (k : String) (v : Val) :
    ((k, v) ∈ get_values inst ↔ (k, v) ∈ inst ∧ v ≠ Val.vnone)
    ∧ ((∀ v', (k, v') ∈ inst → v' = Val.vnone) →
        get_values (set_attr inst k Val.vnone) = get_values inst) := by
  constructor
  · simp [get_values, List.mem_filter]
  · intro h
    rw [set_attr_none_id inst k h]

/-- C9 witness: on a concrete instance, a `None`-valued field is omitted, a
set field is kept, and assigning `None` explicitly changes nothing. -/
theorem c9_get_values_omits_none_witness :
    (("name", Val.vstr "foo") ∈ get_values
        [("name", Val.vstr "foo"), ("description", Val.vnone)]
      ↔ ("name", Val.vstr "foo")
          ∈ [("name", Val.vstr "foo"), ("description", Val.vnone)]
        ∧ Val.vstr "foo" ≠ Val.vnone)
    ∧ get_values (set_attr
        [("name", Val.vstr "foo"), ("description", Val.vnone)]
        "description" Val.vnone)
      = get_values [("name", Val.vstr "foo"), ("description", Val.vnone)] :=
  ⟨(c9_get_values_omits_none
      [("name", Val.vstr "foo"), ("description", Val.vnone)]
      "name" (Val.vstr "foo")).1,
   (c9_get_values_omits_none
      [("name", Val.vstr "foo"), ("description", Val.vnone)]
      "description" Val.vnone).2 (fun v' hv' => by
        simp only [List.mem_cons, List.not_mem_nil, or_false,
          Prod.mk.injEq] at hv'
        rcases hv' with ⟨h1, _⟩ | ⟨_, h2⟩
        · exact absurd h1 (by decide)
        · exact h2)⟩

/-- C10: `create_object` unwraps every non-empty list result to its first
element (later elements are discarded), and returns an empty list result
unchanged. -/
theorem c10_unwrap_first_element (name : String)
    (backend : AttrMap → ExecResult) (args : AttrMap)
    (x : Stdout) (xs : List Stdout) (err : String) :
    (backend args = ⟨0, Stdout.list (x :: xs), err⟩ →
      (create_object name backend args).1 = Except.ok x)
    ∧ (backend args = ⟨0, Stdout.list [], err⟩ →
      (create_object name backend args).1 = Except.ok (Stdout.list [])) := by
  constructor <;> intro h <;> simp [create_object, h, normalize_stdout]

/-- C10 witness: a two-element list result yields its first element with
the second discarded, and an empty list result is passed through. -/
theorem c10_unwrap_first_element_witness :
    ((fun _ : AttrMap =>
        (⟨0, Stdout.list [Stdout.dict [("id", Val.vint 1)],
          Stdout.dict [("id", Val.vint 2)]], ""⟩ : ExecResult)) []
      = ⟨0, Stdout.list [Stdout.dict [("id", Val.vint 1)],
          Stdout.dict [("id", Val.vint 2)]], ""⟩
    ∧ (create_object "Org"
        (fun _ => ⟨0, Stdout.list [Stdout.dict [("id", Val.vint 1)],
          Stdout.dict [("id", Val.vint 2)]], ""⟩) []).1
      = Except.ok (Stdout.dict [("id", Val.vint 1)]))
    ∧ (create_object "Org" (fun _ => ⟨0, Stdout.list [], ""⟩) []).1
      = Except.ok (Stdout.list []) :=
  ⟨⟨rfl,
    (c10_unwrap_first_element "Org"
      (fun _ => ⟨0, Stdout.list [Stdout.dict [("id", Val.vint 1)],
        Stdout.dict [("id", Val.vint 2)]], ""⟩) []
      (Stdout.dict [("id", Val.vint 1)]) [Stdout.dict [("id", Val.vint 2)]]
      "").1 rfl⟩,
   (c10_unwrap_first_element "Org" (fun _ => ⟨0, Stdout.list [], ""⟩) []
      (Stdout.str "") [] "").2 rfl⟩

/-- Helper: every `create_object` call performs exactly one submission
followed by the five-second delay, whatever the outcome. -/
theorem create_object_trace_eq (name : String) (backend : AttrMap → ExecResult)
    (args : AttrMap) :
    (create_object name backend args).2
      = [Event.submit name args, Event.sleep 5] := by
  unfold create_object
  split <;> rfl

/-- Helper: if one of the option keys is truthy then `options` itself is a
non-empty dict, hence truthy. -/
theorem optFalsy_of_truthy (opts : Option AttrMap) (k : String)
    (h : truthy (optGet opts k) = true) : optFalsy opts = false := by
  cases opts with
  | none => simp [optGet, truthy] at h
  | some m =>
    cases m with
    | nil => simp [optGet, dictGet, List.lookup, truthy] at h
    | cons kv rest => rfl

/-- Helper: appending the empty string on the right is the identity. -/
theorem str_append_empty (s : String) : s ++ "" = s := by
  apply String.ext
  simp [String.data_append]

/-- C3: `make_activation_key` organization validation: when none of
`organization`, `organization-id`, `organization-label` holds a truthy
value the call returns the `CLIFactoryError` with an empty side-effect
trace (no backend submission); when exactly one of the three is truthy the
validation passes and the backend submission (followed by the propagation
delay) is performed. -/
theorem c3_activation_key_org_validation (genName : String)
    (backend : AttrMap → ExecResult) (opts : Option AttrMap) :
    ((truthy (optGet opts "organization") = false
        ∧ truthy (optGet opts "organization-label") = false
        ∧ truthy (optGet opts "organization-id") = false) →
      make_activation_key genName backend opts
        = (Except.error (FactoryError.cliError
            ⟨"Please provide a valid Organization."⟩), []))
    ∧ (exactlyOne (truthy (optGet opts "organization"))
        (truthy (optGet opts "organization-label"))
        (truthy (optGet opts "organization-id")) = true →
      (make_activation_key genName backend opts).2
        = [Event.submit "ActivationKey"
            (update_dictionary (activation_key_defaults genName) opts),
           Event.sleep 5]) := by
  constructor
  · intro ⟨h1, h2, h3⟩
    simp [make_activation_key, h1, h2, h3]
  · intro h
    have htruthy : truthy (optGet opts "organization") = true
        ∨ truthy (optGet opts "organization-label") = true
        ∨ truthy (optGet opts "organization-id") = true := by
      revert h
      unfold exactlyOne
      cases truthy (optGet opts "organization")
        <;> cases truthy (optGet opts "organization-label")
        <;> cases truthy (optGet opts "organization-id") <;> simp
    have hfalsy : optFalsy opts = false := by
      rcases htruthy with h' | h' | h' <;> exact optFalsy_of_truthy opts _ h'
    have hguard : (optFalsy opts
        || (!truthy (optGet opts "organization")
            && !truthy (optGet opts "organization-label")
            && !truthy (optGet opts "organization-id"))) = false := by
      rcases htruthy with h' | h' | h' <;> simp [hfalsy, h']
    rw [make_activation_key, if_neg (by simp [hguard])]
    rcases hco : create_object "ActivationKey" backend
        (update_dictionary (activation_key_defaults genName) opts)
      with ⟨res, tr⟩
    have htr : tr = [Event.submit "ActivationKey"
        (update_dictionary (activation_key_defaults genName) opts),
        Event.sleep 5] := by
      have := create_object_trace_eq "ActivationKey" backend
        (update_dictionary (activation_key_defaults genName) opts)
      rw [hco] at this
      exact this
    cases res with
    | error e => simpa using htr
    | ok out => cases out <;> simpa using htr

/-- C3 witness: `make_activation_key(None)` and with an empty dict fail
before any submission, and a dict carrying only a truthy
`organization-id` passes validation and reaches the backend. -/
theorem c3_activation_key_org_validation_witness :
    (make_activation_key "k" (fun _ => ⟨0, Stdout.dict [], ""⟩) none
      = (Except.error (FactoryError.cliError
          ⟨"Please provide a valid Organization."⟩), []))
    ∧ (make_activation_key "k" (fun _ => ⟨0, Stdout.dict [], ""⟩) (some [])
      = (Except.error (FactoryError.cliError
          ⟨"Please provide a valid Organization."⟩), []))
    ∧ ((make_activation_key "k" (fun _ => ⟨0, Stdout.dict [], ""⟩)
        (some [("organization-id", Val.vint 3)])).2
      = [Event.submit "ActivationKey"
          (update_dictionary (activation_key_defaults "k")
            (some [("organization-id", Val.vint 3)])),
         Event.sleep 5]) :=
  ⟨(c3_activation_key_org_validation "k"
      (fun _ => ⟨0, Stdout.dict [], ""⟩) none).1 (by decide),
   (c3_activation_key_org_validation "k"
      (fun _ => ⟨0, Stdout.dict [], ""⟩) (some [])).1 (by decide),
   (c3_activation_key_org_validation "k"
      (fun _ => ⟨0, Stdout.dict [], ""⟩)
      (some [("organization-id", Val.vint 3)])).2 (by decide)⟩

/-- C4: a creation whose backend reports a non-zero return code raises a
`CLIFactoryError` whose message contains the rendering of the attempted
args dict and contains the remote diagnostic with every line indented by
two spaces. -/
theorem c4_create_error_message (name : String)
    (backend : AttrMap → ExecResult) (args : AttrMap)
    (h : (backend args).return_code ≠ 0) :
    (create_object name backend args).1
      = Except.error ⟨create_error_msg name args (backend args).stderr⟩
    ∧ strContains (create_error_msg name args (backend args).stderr)
        (reprAttrMap args)
    ∧ strContains (create_error_msg name args (backend args).stderr)
        (String.intercalate "\n"
          (((backend args).stderr.splitOn "\n").map fun line => "  " ++ line)) := by
  refine ⟨?_, ?_, ?_⟩
  · simp [create_object, h]
  · exact ⟨"Failed to create " ++ name ++ " with ",
      " data due to:\n" ++ _format_error_msg (backend args).stderr,
      by simp [create_error_msg, String.append_assoc]⟩
  · refine ⟨"Failed to create " ++ name ++ " with " ++ reprAttrMap args
      ++ " data due to:\n", "", ?_⟩
    rw [str_append_empty]
    simp [create_error_msg, _format_error_msg, String.append_assoc]

/-- C4 witness: a concrete failing creation produces the structured error,
whose message contains the args rendering and the two-space-indented
two-line diagnostic. -/
theorem c4_create_error_message_witness :
    ((fun _ : AttrMap => (⟨1, Stdout.str "", "bad name\nbad label"⟩ : ExecResult))
        [("name", Val.vstr "x")]).return_code ≠ 0
    ∧ ((create_object "Org"
        (fun _ => ⟨1, Stdout.str "", "bad name\nbad label"⟩)
        [("name", Val.vstr "x")]).1
      = Except.error ⟨create_error_msg "Org" [("name", Val.vstr "x")]
          "bad name\nbad label"⟩
      ∧ strContains (create_error_msg "Org" [("name", Val.vstr "x")]
          "bad name\nbad label") (reprAttrMap [("name", Val.vstr "x")])
      ∧ strContains (create_error_msg "Org" [("name", Val.vstr "x")]
          "bad name\nbad label")
          (String.intercalate "\n"
            ((("bad name\nbad label" : String).splitOn "\n").map
              fun line => "  " ++ line))) :=
  ⟨by decide,
   c4_create_error_message "Org"
     (fun _ => ⟨1, Stdout.str "", "bad name\nbad label"⟩)
     [("name", Val.vstr "x")] (by decide)⟩

/-- C6 counterexample: a concrete failing submission still performs the
five-second propagation delay before the error is surfaced — the trace of
the failing call contains the sleep event, contradicting the claim that a
failed submission skips the delay. -/
theorem c6_counterexample :
    ((create_object "Org" (fun _ => ⟨1, Stdout.str "", "boom"⟩) []).1
      = Except.error ⟨create_error_msg "Org" [] "boom"⟩)
    ∧ Event.sleep 5
        ∈ (create_object "Org" (fun _ => ⟨1, Stdout.str "", "boom"⟩) []).2 := by
  constructor
  · rfl
  · rw [create_object_trace_eq]
    exact List.mem_cons_of_mem _ (List.mem_cons_self _ _)

/-- C6 (amended): the fixed five-second propagation delay is performed
after every submission — successful or not — and before the return code is
inspected; a failed submission is surfaced to the caller only after the
delay, a successful one proceeds to normalization after the delay, and
there is exactly one submission per call (no retry). -/
theorem c6_delay_after_every_submission (name : String)
    (backend : AttrMap → ExecResult) (args : AttrMap) :
    (create_object name backend args).2
      = [Event.submit name args, Event.sleep 5]
    ∧ ((backend args).return_code ≠ 0 →
        (create_object name backend args).1
          = Except.error ⟨create_error_msg name args (backend args).stderr⟩)
    ∧ ((backend args).return_code = 0 →
        (create_object name backend args).1
          = Except.ok (normalize_stdout (backend args).stdout)) := by
  refine ⟨create_object_trace_eq name backend args, ?_, ?_⟩
  · intro h
    simp [create_object, h]
  · intro h
    simp [create_object, h]

/-- C6 (amended) witness: the trace and outcome of one failing and the
outcome of one succeeding concrete call. -/
theorem c6_delay_after_every_submission_witness :
    ((create_object "Model" (fun _ => ⟨1, Stdout.str "", "oops"⟩) []).2
      = [Event.submit "Model" [], Event.sleep 5]
    ∧ (((fun _ : AttrMap => (⟨1, Stdout.str "", "oops"⟩ : ExecResult)) []).return_code ≠ 0 →
        (create_object "Model" (fun _ => ⟨1, Stdout.str "", "oops"⟩) []).1
          = Except.error ⟨create_error_msg "Model" [] "oops"⟩)
    ∧ (((fun _ : AttrMap => (⟨1, Stdout.str "", "oops"⟩ : ExecResult)) []).return_code = 0 →
        (create_object "Model" (fun _ => ⟨1, Stdout.str "", "oops"⟩) []).1
          = Except.ok (normalize_stdout
              ((fun _ : AttrMap => (⟨1, Stdout.str "", "oops"⟩ : ExecResult)) []).stdout)))
    ∧ (create_object "Model" (fun _ => ⟨0, Stdout.dict [], ""⟩) []).1
      = Except.ok (normalize_stdout (Stdout.dict [])) :=
  ⟨c6_delay_after_every_submission "Model"
     (fun _ => ⟨1, Stdout.str "", "oops"⟩) [],
   (c6_delay_after_every_submission "Model"
     (fun _ => ⟨0, Stdout.dict [], ""⟩) []).2.2 rfl⟩

/-- Helper: synthesized names are never empty (the generated length is at
least one). -/
theorem generate_name_ne_empty (maxLen r : Nat) : generate_name maxLen r ≠ "" := by
  unfold generate_name
  intro h
  have hdata : (List.range (1 + r % maxLen)).map
      (fun i => Char.ofNat (97 + (r + i) % 26)) = [] :=
    congrArg String.data h
  rw [List.map_eq_nil_iff, List.range_eq_nil] at hdata
  exact Nat.succ_ne_zero _ ((Nat.add_comm 1 (r % maxLen)) ▸ hdata)

/-- C8: `make_org` with no overrides synthesizes a non-empty name; when the
backend succeeds and returns the server-assigned identifier, the normalized
result is merged over the materialized args, so the returned mapping holds
both the synthesized name and the identifier. -/
theorem c8_make_org_merges_server_fields (r : Nat)
    (backend : AttrMap → ExecResult) (sid : Int) (errS : String)
    (hb : backend (org_defaults r)
      = ⟨0, Stdout.dict [("id", Val.vint sid)], errS⟩) :
    generate_name 6 r ≠ ""
    ∧ (make_org r backend none).1
      = Except.ok (dict_update (org_defaults r) [("id", Val.vint sid)])
    ∧ List.lookup "name" (dict_update (org_defaults r) [("id", Val.vint sid)])
      = some (Val.vstr (generate_name 6 r))
    ∧ List.lookup "id" (dict_update (org_defaults r) [("id", Val.vint sid)])
      = some (Val.vint sid) := by
  refine ⟨generate_name_ne_empty 6 r, ?_, ?_, ?_⟩
  · rw [make_org]
    have : create_object "Org" backend (update_dictionary (org_defaults r) none)
        = (Except.ok (Stdout.dict [("id", Val.vint sid)]),
           [Event.submit "Org" (org_defaults r), Event.sleep 5]) := by
      simp [create_object, update_dictionary, hb, normalize_stdout]
    rw [this]
    rfl
  · simp [dict_update, org_defaults, List.lookup]
  · simp [dict_update, org_defaults, List.lookup]

/-- C8 witness: a concrete successful creation with no overrides returns a
mapping holding both the synthesized (non-empty) name and the
server-assigned identifier. -/
theorem c8_make_org_merges_server_fields_witness :
    ((fun _ : AttrMap =>
        (⟨0, Stdout.dict [("id", Val.vint 42)], ""⟩ : ExecResult)) (org_defaults 0)
      = ⟨0, Stdout.dict [("id", Val.vint 42)], ""⟩)
    ∧ (generate_name 6 0 ≠ ""
      ∧ (make_org 0 (fun _ => ⟨0, Stdout.dict [("id", Val.vint 42)], ""⟩) none).1
        = Except.ok (dict_update (org_defaults 0) [("id", Val.vint 42)])
      ∧ List.lookup "name" (dict_update (org_defaults 0) [("id", Val.vint 42)])
        = some (Val.vstr (generate_name 6 0))
      ∧ List.lookup "id" (dict_update (org_defaults 0) [("id", Val.vint 42)])
        = some (Val.vint 42)) :=
  ⟨rfl,
   c8_make_org_merges_server_fields 0
     (fun _ => ⟨0, Stdout.dict [("id", Val.vint 42)], ""⟩) 42 "" rfl⟩

end Robottelo
